import Mathlib

/-!
Verification of the `create webhook` subcommand of kubebuilder's golang/v3
plugin (`pkg/plugins/golang/v3/webhook.go`), against its natural-language
specification.

The subcommand itself (`BindFlags`, `Run`, `Validate`, `GetScaffolder`) is
embedded from the source.  Its collaborators live in other packages of the
repository (`pkg/plugins/golang/options.go`, `pkg/model/resource`,
`pkg/config`, `pkg/plugins/internal/cmdutil`) and are modelled from the
specification; each such definition carries a doc comment starting
`Modelled from the spec:`.
-/

namespace Kubebuilder

/-- Decidable equality of fallible results, so concrete runs can be checked
by `decide`. -/
instance instDecEqExcept {ε α : Type} [DecidableEq ε] [DecidableEq α] :
    DecidableEq (Except ε α) := fun a b =>
  match a, b with
  | .error e1, .error e2 =>
    match decEq e1 e2 with
    | isTrue h => isTrue (h ▸ rfl)
    | isFalse h => isFalse (fun hab => h (Except.error.inj hab))
  | .ok u1, .ok u2 =>
    match decEq u1 u2 with
    | isTrue h => isTrue (h ▸ rfl)
    | isFalse h => isFalse (fun hab => h (Except.ok.inj hab))
  | .error _, .ok _ => isFalse (fun hab => Except.noConfusion hab)
  | .ok _, .error _ => isFalse (fun hab => Except.noConfusion hab)

/-- The error taxonomy of the spec (§7).  Each constructor corresponds to one
`return fmt.Errorf(...)`/propagation site of the subcommand. -/
inductive ErrKind where
  | invalidOption
  | invalidResource
  | noWebhookTypeSelected
  | resourceNotFound
  | webhookAlreadyExists
  | webhookVersionConflict
  | boilerplateLoadFailure
  deriving DecidableEq, Repr

/-- Group-Version-Kind resource identity (`pkg/model/resource` GVK), as used by
`p.resource.GVK` and `p.config.GetResource` in webhook.go.  Modelled from the
spec: ResourceIdentity {Group, Domain, Version, Kind} (§3). -/
structure GVK where
  group : String
  domain : String
  version : String
  kind : String
  deriving DecidableEq, Repr

/-- Webhook descriptor.  Modelled from the spec: WebhookDescriptor
{DoDefaulting, DoValidation, DoConversion, WebhookVersion} (§3). -/
structure Webhooks where
  webhookVersion : String
  defaulting : Bool
  validating : Bool
  converting : Bool
  deriving DecidableEq, Repr

/-- Modelled from the spec: `Webhooks.IsEmpty` (pkg/model/resource, not in
src/) — a descriptor is empty when every field is empty/false. -/
def Webhooks.isEmpty (w : Webhooks) : Bool :=
  w.webhookVersion == "" && !w.defaulting && !w.validating && !w.converting

/-- A project resource.  Modelled from the spec: Resource {Identity,
Webhooks: WebhookDescriptor|absent} (§3); `none` is Go's nil pointer. -/
structure Resource where
  gvk : GVK
  plural : String
  webhooks : Option Webhooks
  deriving DecidableEq, Repr

/-- Modelled from the spec: `Resource.HasDefaultingWebhook`
(pkg/model/resource, not in src/) — a defaulting webhook is present. -/
def Resource.hasDefaultingWebhook (r : Resource) : Bool :=
  match r.webhooks with
  | some w => w.defaulting
  | none => false

/-- Modelled from the spec: `Resource.HasValidationWebhook`
(pkg/model/resource, not in src/) — a validating webhook is present. -/
def Resource.hasValidationWebhook (r : Resource) : Bool :=
  match r.webhooks with
  | some w => w.validating
  | none => false

/-- Modelled from the spec: `Resource.HasConversionWebhook`
(pkg/model/resource, not in src/) — a conversion webhook is present. -/
def Resource.hasConversionWebhook (r : Resource) : Bool :=
  match r.webhooks with
  | some w => w.converting
  | none => false

/-- The webhook config version carried by the built resource, read by
`p.resource.Webhooks.WebhookVersion` in webhook.go.  The built resource always
has a descriptor (`NewResource` populates it), so the `none` default is never
reached on the subcommand's own resource. -/
def Resource.webhookVersion (r : Resource) : String :=
  match r.webhooks with
  | some w => w.webhookVersion
  | none => ""

/-- `r.Webhooks != nil && !r.Webhooks.IsEmpty()` from webhook.go line 120. -/
def Resource.webhooksNonEmpty (r : Resource) : Bool :=
  match r.webhooks with
  | some w => !w.isEmpty
  | none => false

/-- Command options (`goPlugin.Options`).  Modelled from the spec:
CommandOptions {Group, Version, Kind, Plural, WebhookVersion, DoDefaulting,
DoValidation, DoConversion} (§3), plus the injected Domain set by BindFlags. -/
structure Options where
  group : String
  domain : String
  version : String
  kind : String
  plural : String
  webhookVersion : String
  doDefaulting : Bool
  doValidation : Bool
  doConversion : Bool
  deriving DecidableEq, Repr

/-- Project configuration.  Modelled from the spec: Project Config holds the
durable set of previously declared resources and exposes the project domain
(§2, §3). -/
structure Config where
  domain : String
  resources : List Resource
  deriving DecidableEq, Repr

/-- Modelled from the spec: `Config.GetResource` (pkg/config, not in src/) —
look up a previously declared resource by its GVK; lookup failure and absence
are merged (§9). -/
def Config.getResource (c : Config) (gvk : GVK) : Option Resource :=
  c.resources.find? (fun r => r.gvk == gvk)

/-- Modelled from the spec: `Config.IsWebhookVersionCompatible` (pkg/config,
not in src/) — the requested version must match the project-wide webhook
version already committed by any resource carrying a non-empty webhook
descriptor (§4.2 check 6, §3 ProjectWebhookPolicy). -/
def Config.isWebhookVersionCompatible (c : Config) (v : String) : Bool :=
  c.resources.all fun r =>
    match r.webhooks with
    | some w => w.webhookVersion == "" || v == w.webhookVersion
    | none => true

/-- Modelled from the spec: the versions committed project-wide, inferred from
resources carrying a webhook descriptor with a set version (§3
ProjectWebhookPolicy). -/
def Config.committedVersions (c : Config) : List String :=
  c.resources.filterMap fun r =>
    match r.webhooks with
    | some w => if w.webhookVersion == "" then none else some w.webhookVersion
    | none => none

/-- Modelled from the spec: `Options.Validate` (pkg/plugins/golang, not in
src/) — option well-formedness, e.g. Kind must be non-empty (§4.2 check 1). -/
def Options.validate (o : Options) : Except ErrKind Unit :=
  if o.kind = "" then .error .invalidOption else .ok ()

/-- Modelled from the spec: `Resource.Validate` (pkg/model/resource, not in
src/) — resource well-formedness: GVK components individually valid, e.g.
non-empty Version and Kind (§4.1, §4.2 check 2). -/
def Resource.validate (r : Resource) : Except ErrKind Unit :=
  if r.gvk.version = "" || r.gvk.kind = "" then .error .invalidResource else .ok ()

/-- Modelled from the spec: the Resource Descriptor Builder
(`Options.NewResource`, pkg/plugins/golang, not in src/) — pure construction
passing the option fields through unresolved, with the webhook descriptor
built from the three booleans and the requested version (§4.1). -/
def Options.newResource (o : Options) (_c : Config) : Resource :=
  { gvk := { group := o.group, domain := o.domain, version := o.version, kind := o.kind }
    plural := o.plural
    webhooks := some { webhookVersion := o.webhookVersion
                       defaulting := o.doDefaulting
                       validating := o.doValidation
                       converting := o.doConversion } }

/-- The subcommand state (`createWebhookSubcommand` of webhook.go): injected
config, bound options, built resource, and the force flag. -/
structure CreateWebhookSubcommand where
  config : Config
  options : Options
  resource : Resource
  force : Bool
  deriving DecidableEq, Repr

/-- `createWebhookSubcommand.Validate` from webhook.go lines 103-130,
transcribed early-return by early-return:
options validity, resource validity, webhook-type selection, resource
existence, duplication-unless-forced, project-wide version compatibility. -/
def CreateWebhookSubcommand.validate (p : CreateWebhookSubcommand) :
    Except ErrKind Unit :=
  match p.options.validate with
  | .error e => .error e
  | .ok _ =>
    match p.resource.validate with
    | .error e => .error e
    | .ok _ =>
      if !p.resource.hasDefaultingWebhook && !p.resource.hasValidationWebhook
          && !p.resource.hasConversionWebhook then
        .error .noWebhookTypeSelected
      else
        match p.config.getResource p.resource.gvk with
        | none => .error .resourceNotFound
        | some r =>
          if r.webhooksNonEmpty && !p.force then
            .error .webhookAlreadyExists
          else if !(p.config.isWebhookVersionCompatible p.resource.webhookVersion) then
            .error .webhookVersionConflict
          else
            .ok ()

/-- `defaultWebhookVersion` from webhook.go line 35: the default
{Mutating,Validating}WebhookConfiguration API version to scaffold. -/
def defaultWebhookVersion : String := "v1"

/-- The raw CLI input consumed by `BindFlags` (webhook.go lines 71-90): one
optional value per declared flag, `none` meaning the flag was not given.
There is no domain field because webhook.go declares no `--domain` flag. -/
structure FlagInput where
  group : Option String
  version : Option String
  kind : Option String
  plural : Option String
  webhookVersion : Option String
  defaulting : Option Bool
  programmaticValidation : Option Bool
  conversionFlag : Option Bool
  forceFlag : Option Bool
  deriving DecidableEq, Repr

/-- `createWebhookSubcommand.BindFlags` from webhook.go lines 71-90: each flag
takes the given value or its declared default; `Options.Domain` is not bound
to any flag but copied from the injected config's domain (line 74).  Returns
the bound options together with the bound `force` flag (a field of the
subcommand, not of the options). -/
def bindFlags (cfg : Config) (fl : FlagInput) : Options × Bool :=
  ({ group := fl.group.getD ""
     domain := cfg.domain
     version := fl.version.getD ""
     kind := fl.kind.getD ""
     plural := fl.plural.getD ""
     webhookVersion := fl.webhookVersion.getD defaultWebhookVersion
     doDefaulting := fl.defaulting.getD false
     doValidation := fl.programmaticValidation.getD false
     doConversion := fl.conversionFlag.getD false },
   fl.forceFlag.getD false)

/-- The scaffolder handle returned by `GetScaffolder`: the four arguments of
`scaffolds.NewWebhookScaffolder(p.config, string(bp), p.resource, p.force)`
(webhook.go line 139); the scaffolder itself is an external collaborator. -/
structure Scaffolder where
  config : Config
  boilerplate : String
  resource : Resource
  force : Bool
  deriving DecidableEq, Repr

/-- `filepath.Join` on two components, as used in webhook.go line 134. -/
def filepathJoin (a b : String) : String := a ++ "/" ++ b

/-- The fixed relative path of the boilerplate header,
`filepath.Join("hack", "boilerplate.go.txt")` (webhook.go line 134). -/
def boilerplatePath : String := filepathJoin "hack" "boilerplate.go.txt"

/-- `createWebhookSubcommand.GetScaffolder` from webhook.go lines 132-140.
File-system reading (`ioutil.ReadFile`) is external I/O, passed in as a
function from paths to a read result. -/
def getScaffolder (fs : String → Except Unit String)
    (p : CreateWebhookSubcommand) : Except ErrKind Scaffolder :=
  match fs boilerplatePath with
  | .error _ => .error .boilerplateLoadFailure
  | .ok bp =>
    .ok { config := p.config, boilerplate := bp, resource := p.resource, force := p.force }

/-- Observable outcome of one command invocation: the reported result, whether
a scaffolder handle was constructed, how many scaffold attempts ran, and the
project config after the run. -/
structure RunOutcome where
  result : Except ErrKind Unit
  scaffolderAcquired : Bool
  scaffoldAttempts : Nat
  finalConfig : Config
  deriving Repr

/-- `createWebhookSubcommand.Run` (webhook.go lines 96-101) builds the
resource from the options and hands off to the orchestrator.  Modelled from
the spec: `cmdutil.Run` (pkg/plugins/internal/cmdutil, not in src/) sequences
Validate, GetScaffolder and one scaffold attempt, aborting on the first
failure with no project-state change (§4.3).  The external scaffolder's
read-write access to the config is the `scaffoldFn` parameter. -/
def run (fs : String → Except Unit String) (scaffoldFn : Scaffolder → Config → Config)
    (cfg : Config) (opts : Options) (force : Bool) : RunOutcome :=
  let p : CreateWebhookSubcommand :=
    { config := cfg, options := opts, resource := opts.newResource cfg, force := force }
  match p.validate with
  | .error e =>
    { result := .error e, scaffolderAcquired := false, scaffoldAttempts := 0, finalConfig := cfg }
  | .ok _ =>
    match getScaffolder fs p with
    | .error e =>
      { result := .error e, scaffolderAcquired := false, scaffoldAttempts := 0, finalConfig := cfg }
    | .ok s =>
      { result := .ok (), scaffolderAcquired := true, scaffoldAttempts := 1,
        finalConfig := scaffoldFn s cfg }

/-! ### The validation chain, check by check

Each check of the spec's Validation Engine (§4.2) as a stand-alone
observation on the subcommand state, used to state that `validate` is their
short-circuiting ordered chain. -/

/-- Check 1, option well-formedness: the error it reports, if any. -/
def check1 (p : CreateWebhookSubcommand) : Option ErrKind :=
  match p.options.validate with
  | .error e => some e
  | .ok _ => none

/-- Check 2, resource well-formedness: the error it reports, if any. -/
def check2 (p : CreateWebhookSubcommand) : Option ErrKind :=
  match p.resource.validate with
  | .error e => some e
  | .ok _ => none

/-- Check 3, webhook-type selection: at least one webhook type enabled. -/
def check3 (p : CreateWebhookSubcommand) : Option ErrKind :=
  if !p.resource.hasDefaultingWebhook && !p.resource.hasValidationWebhook
      && !p.resource.hasConversionWebhook then
    some .noWebhookTypeSelected
  else none

/-- Check 4, resource existence: the GVK is declared in the project config. -/
def check4 (p : CreateWebhookSubcommand) : Option ErrKind :=
  match p.config.getResource p.resource.gvk with
  | none => some .resourceNotFound
  | some _ => none

/-- Check 5, non-duplication unless forced: the found resource must not
already carry a non-empty webhook descriptor, unless `force` is set. -/
def check5 (p : CreateWebhookSubcommand) : Option ErrKind :=
  match p.config.getResource p.resource.gvk with
  | none => none
  | some r => if r.webhooksNonEmpty && !p.force then some .webhookAlreadyExists else none

/-- Check 6, project-wide webhook version compatibility. -/
def check6 (p : CreateWebhookSubcommand) : Option ErrKind :=
  if !(p.config.isWebhookVersionCompatible p.resource.webhookVersion) then
    some .webhookVersionConflict
  else none

/-- Run a list of checks in order, reporting the first failure: the generic
shape of a short-circuiting ordered chain. -/
def firstFailure : List (Option ErrKind) → Except ErrKind Unit
  | [] => .ok ()
  | none :: rest => firstFailure rest
  | some e :: _ => .error e

/-- The validation chain with the non-duplication test of check 5 removed
(the resource-existence part of the same statement is kept): what `Validate`
does when `force` bypasses duplication. -/
def validateSkippingDuplication (p : CreateWebhookSubcommand) :
    Except ErrKind Unit :=
  firstFailure [check1 p, check2 p, check3 p, check4 p, check6 p]

/-! ### Helper lemmas -/

/-- `validate` is exactly the ordered chain of the six checks. -/
lemma validate_eq_chain (p : CreateWebhookSubcommand) :
    p.validate = firstFailure [check1 p, check2 p, check3 p, check4 p, check5 p, check6 p] := by
  cases hopt : p.options.validate with
  | error e =>
    simp [CreateWebhookSubcommand.validate, check1, firstFailure, hopt]
  | ok u =>
    cases hres : p.resource.validate with
    | error e =>
      simp [CreateWebhookSubcommand.validate, check1, check2, firstFailure, hopt, hres]
    | ok u2 =>
      cases h3 : (!p.resource.hasDefaultingWebhook && !p.resource.hasValidationWebhook
          && !p.resource.hasConversionWebhook) with
      | true =>
        simp [CreateWebhookSubcommand.validate, check1, check2, check3, firstFailure,
          hopt, hres, h3]
      | false =>
        cases h4 : p.config.getResource p.resource.gvk with
        | none =>
          simp [CreateWebhookSubcommand.validate, check1, check2, check3, check4,
            firstFailure, hopt, hres, h3, h4]
        | some r =>
          cases h5 : (r.webhooksNonEmpty && !p.force) with
          | true =>
            simp [CreateWebhookSubcommand.validate, check1, check2, check3, check4, check5,
              firstFailure, hopt, hres, h3, h4, h5]
          | false =>
            cases h6 : p.config.isWebhookVersionCompatible p.resource.webhookVersion with
            | true =>
              simp [CreateWebhookSubcommand.validate, check1, check2, check3, check4, check5,
                check6, firstFailure, hopt, hres, h3, h4, h5, h6]
            | false =>
              simp [CreateWebhookSubcommand.validate, check1, check2, check3, check4, check5,
                check6, firstFailure, hopt, hres, h3, h4, h5, h6]

/-- A webhook type is selected exactly when the all-disabled test of check 3
is false. -/
lemma check3_cond_false (p : CreateWebhookSubcommand)
    (h : (p.resource.hasDefaultingWebhook || p.resource.hasValidationWebhook
      || p.resource.hasConversionWebhook) = true) :
    (!p.resource.hasDefaultingWebhook && !p.resource.hasValidationWebhook
      && !p.resource.hasConversionWebhook) = false := by
  cases ha : p.resource.hasDefaultingWebhook <;>
    cases hb : p.resource.hasValidationWebhook <;>
    cases hc : p.resource.hasConversionWebhook <;> simp_all

/-! ### C1 -/

/-- C1: Validate executes its checks as a short-circuiting ordered chain in
the fixed order — option well-formedness, resource well-formedness,
webhook-type selection, resource existence, non-duplication-unless-forced,
project-wide webhook version compatibility; the first failing check
determines the reported error kind and no subsequent check runs. -/
theorem validate_is_short_circuiting_ordered_chain (p : CreateWebhookSubcommand) :
    p.validate = firstFailure [check1 p, check2 p, check3 p, check4 p, check5 p, check6 p] :=
  validate_eq_chain p

/-! ### C2 -/

/-- A subcommand state with all three webhook-type booleans false and an
ill-formed Kind (empty string): option well-formedness fails first. -/
def c2Bad : CreateWebhookSubcommand :=
  let cfg : Config := { domain := "test.io", resources := [] }
  let opts : Options :=
    { group := "crew", domain := "test.io", version := "v1", kind := ""
      plural := "", webhookVersion := "v1"
      doDefaulting := false, doValidation := false, doConversion := false }
  { config := cfg, options := opts, resource := opts.newResource cfg, force := false }

/-- C2 counterexample: an options value with all three webhook-type booleans
false on which Validate does not report NoWebhookTypeSelected — the empty
Kind makes the earlier option well-formedness check fail first, so the error
is not independent of the other fields. -/
theorem c2_not_regardless_of_other_fields :
    (c2Bad.options.doDefaulting = false ∧ c2Bad.options.doValidation = false ∧
      c2Bad.options.doConversion = false) ∧
    c2Bad.validate = .error .invalidOption ∧
    c2Bad.validate ≠ .error .noWebhookTypeSelected := by
  refine ⟨⟨rfl, rfl, rfl⟩, by decide, by decide⟩

/-- C2 amended: for options in which the three webhook-type booleans are all
false and whose resource was built from them, Validate fails with
NoWebhookTypeSelected provided the earlier option and resource
well-formedness checks pass, regardless of every other field. -/
theorem validate_no_webhook_type_selected (p : CreateWebhookSubcommand)
    (hbuilt : p.resource = p.options.newResource p.config)
    (hd : p.options.doDefaulting = false) (hv : p.options.doValidation = false)
    (hc : p.options.doConversion = false)
    (h1 : p.options.validate = .ok ()) (h2 : p.resource.validate = .ok ()) :
    p.validate = .error .noWebhookTypeSelected := by
  rw [validate_eq_chain]
  have hr1 : check1 p = none := by simp [check1, h1]
  have hr2 : check2 p = none := by simp [check2, h2]
  have hr3 : check3 p = some .noWebhookTypeSelected := by
    simp [check3, hbuilt, Options.newResource, Resource.hasDefaultingWebhook,
      Resource.hasValidationWebhook, Resource.hasConversionWebhook, hd, hv, hc]
  simp [hr1, hr2, hr3, firstFailure]

/-- A well-formed subcommand state with all three webhook-type booleans
false. -/
def c2Good : CreateWebhookSubcommand :=
  let cfg : Config := { domain := "test.io", resources := [] }
  let opts : Options :=
    { group := "crew", domain := "test.io", version := "v1", kind := "Captain"
      plural := "", webhookVersion := "v1"
      doDefaulting := false, doValidation := false, doConversion := false }
  { config := cfg, options := opts, resource := opts.newResource cfg, force := false }

/-- C2 amended, witnessed on a concrete well-formed input. -/
theorem validate_no_webhook_type_selected_witness :
    c2Good.validate = .error .noWebhookTypeSelected :=
  validate_no_webhook_type_selected c2Good rfl rfl rfl rfl (by decide) (by decide)

/-! ### C3 -/

/-- C3: when the looked-up resource already carries a non-empty webhook
descriptor and the earlier checks of the chain pass, Validate fails with
WebhookAlreadyExists when Force is unset; and with Force set it never fails
with WebhookAlreadyExists (it succeeds subject to the remaining version
check). -/
theorem validate_duplication_unless_forced (p : CreateWebhookSubcommand) (r : Resource)
    (h1 : p.options.validate = .ok ()) (h2 : p.resource.validate = .ok ())
    (h3 : (p.resource.hasDefaultingWebhook || p.resource.hasValidationWebhook
      || p.resource.hasConversionWebhook) = true)
    (h4 : p.config.getResource p.resource.gvk = some r)
    (h5 : r.webhooksNonEmpty = true) :
    (p.force = false → p.validate = .error .webhookAlreadyExists) ∧
    (p.force = true → p.validate ≠ .error .webhookAlreadyExists) := by
  have hr1 : check1 p = none := by simp [check1, h1]
  have hr2 : check2 p = none := by simp [check2, h2]
  have hr3 : check3 p = none := by simp [check3, check3_cond_false p h3]
  have hr4 : check4 p = none := by simp [check4, h4]
  constructor
  · intro hf
    have hr5 : check5 p = some .webhookAlreadyExists := by simp [check5, h4, h5, hf]
    rw [validate_eq_chain]
    simp [hr1, hr2, hr3, hr4, hr5, firstFailure]
  · intro hf
    have hr5 : check5 p = none := by simp [check5, h4, hf]
    rw [validate_eq_chain]
    cases h6 : check6 p with
    | none => simp [hr1, hr2, hr3, hr4, hr5, h6, firstFailure]
    | some e =>
      have he : e = .webhookVersionConflict := by
        by_cases hc : p.config.isWebhookVersionCompatible p.resource.webhookVersion = true
        · simp [check6, hc] at h6
        · simp [check6, Bool.eq_false_iff.mpr hc] at h6
          exact h6.symm
      subst he
      simp [hr1, hr2, hr3, hr4, hr5, h6, firstFailure]

/-- A scenario in which the resource already carries a non-empty webhook
descriptor: C3 witnessed with Force unset. -/
def c3Cmd : CreateWebhookSubcommand :=
  let existing : Resource :=
    { gvk := { group := "ship", domain := "test.io", version := "v1", kind := "Frigate" }
      plural := "frigates"
      webhooks := some { webhookVersion := "v1", defaulting := true
                         validating := false, converting := false } }
  let cfg : Config := { domain := "test.io", resources := [existing] }
  let opts : Options :=
    { group := "ship", domain := "test.io", version := "v1", kind := "Frigate"
      plural := "", webhookVersion := "v1"
      doDefaulting := true, doValidation := false, doConversion := false }
  { config := cfg, options := opts, resource := opts.newResource cfg, force := false }

/-- C3 witnessed: on a concrete project state whose resource already has a
webhook descriptor, validation without Force reports WebhookAlreadyExists. -/
theorem validate_duplication_unless_forced_witness :
    (c3Cmd.force = false → c3Cmd.validate = .error .webhookAlreadyExists) ∧
    (c3Cmd.force = true → c3Cmd.validate ≠ .error .webhookAlreadyExists) :=
  validate_duplication_unless_forced c3Cmd
    { gvk := { group := "ship", domain := "test.io", version := "v1", kind := "Frigate" }
      plural := "frigates"
      webhooks := some { webhookVersion := "v1", defaulting := true
                         validating := false, converting := false } }
    (by decide) (by decide) (by decide) (by decide) (by decide)

/-! ### C4 -/

/-- C4: when the GVK of the built resource is absent from the project config
and the earlier checks of the chain pass, Validate fails with
ResourceNotFound. -/
theorem validate_resource_not_found (p : CreateWebhookSubcommand)
    (h1 : p.options.validate = .ok ()) (h2 : p.resource.validate = .ok ())
    (h3 : (p.resource.hasDefaultingWebhook || p.resource.hasValidationWebhook
      || p.resource.hasConversionWebhook) = true)
    (h4 : p.config.getResource p.resource.gvk = none) :
    p.validate = .error .resourceNotFound := by
  have hr1 : check1 p = none := by simp [check1, h1]
  have hr2 : check2 p = none := by simp [check2, h2]
  have hr3 : check3 p = none := by simp [check3, check3_cond_false p h3]
  have hr4 : check4 p = some .resourceNotFound := by simp [check4, h4]
  rw [validate_eq_chain]
  simp [hr1, hr2, hr3, hr4, firstFailure]

/-- A scenario in which no API was previously created for the GVK. -/
def c4Cmd : CreateWebhookSubcommand :=
  let cfg : Config := { domain := "test.io", resources := [] }
  let opts : Options :=
    { group := "ship", domain := "test.io", version := "v1", kind := "Frigate"
      plural := "", webhookVersion := "v1"
      doDefaulting := true, doValidation := false, doConversion := false }
  { config := cfg, options := opts, resource := opts.newResource cfg, force := false }

/-- C4 witnessed: on a concrete project with no declared resources,
validation reports ResourceNotFound. -/
theorem validate_resource_not_found_witness :
    c4Cmd.validate = .error .resourceNotFound :=
  validate_resource_not_found c4Cmd (by decide) (by decide) (by decide) (by decide)

/-! ### C5 -/

/-- Version compatibility is the statement that every committed version
equals the requested one. -/
lemma compat_eq_all_committed (c : Config) (v : String) :
    c.isWebhookVersionCompatible v = (c.committedVersions.all fun x => v == x) := by
  unfold Config.isWebhookVersionCompatible Config.committedVersions
  generalize c.resources = l
  induction l with
  | nil => rfl
  | cons r rs ih =>
    simp only [List.all_cons, List.filterMap_cons]
    cases hw : r.webhooks with
    | none =>
      simp only [hw, Bool.true_and]
      exact ih
    | some w =>
      simp only [hw]
      by_cases hv : w.webhookVersion = ""
      · have h1 : (w.webhookVersion == "") = true := by simp [hv]
        rw [if_pos h1]
        simp only [h1, Bool.true_or, Bool.true_and]
        exact ih
      · have h1 : (w.webhookVersion == "") = false := by simp [hv]
        rw [if_neg (by simp [hv] : ¬((w.webhookVersion == "") = true))]
        simp only [h1, Bool.false_or, List.all_cons]
        rw [ih]

/-- If some committed version differs from the requested one, the request is
incompatible. -/
lemma compat_false_of_committed_ne (c : Config) (v x : String)
    (hx : x ∈ c.committedVersions) (hne : (v == x) = false) :
    c.isWebhookVersionCompatible v = false := by
  rw [compat_eq_all_committed]
  rw [List.all_eq_false]
  exact ⟨x, hx, by simp [hne]⟩

/-- If every committed version equals the requested one, the request is
compatible. -/
lemma compat_true_of_committed_all (c : Config) (v : String)
    (hall : ∀ x ∈ c.committedVersions, x = v) :
    c.isWebhookVersionCompatible v = true := by
  rw [compat_eq_all_committed]
  rw [List.all_eq_true]
  intro x hx
  simp [hall x hx]

/-- C5: on a project whose committed webhook version is v1, and with every
earlier check of the chain passing, requesting webhook version v1beta1 makes
Validate fail with WebhookVersionConflict, while requesting v1 makes it
succeed. -/
theorem validate_webhook_version_conflict (p : CreateWebhookSubcommand) (r : Resource)
    (h1 : p.options.validate = .ok ()) (h2 : p.resource.validate = .ok ())
    (h3 : (p.resource.hasDefaultingWebhook || p.resource.hasValidationWebhook
      || p.resource.hasConversionWebhook) = true)
    (h4 : p.config.getResource p.resource.gvk = some r)
    (h5 : (r.webhooksNonEmpty && !p.force) = false)
    (hmem : "v1" ∈ p.config.committedVersions)
    (hall : ∀ x ∈ p.config.committedVersions, x = "v1") :
    (p.resource.webhookVersion = "v1beta1" → p.validate = .error .webhookVersionConflict) ∧
    (p.resource.webhookVersion = "v1" → p.validate = .ok ()) := by
  have hr1 : check1 p = none := by simp [check1, h1]
  have hr2 : check2 p = none := by simp [check2, h2]
  have hr3 : check3 p = none := by simp [check3, check3_cond_false p h3]
  have hr4 : check4 p = none := by simp [check4, h4]
  have hr5 : check5 p = none := by simp [check5, h4, h5]
  constructor
  · intro hreq
    have hc : p.config.isWebhookVersionCompatible p.resource.webhookVersion = false := by
      rw [hreq]
      exact compat_false_of_committed_ne p.config "v1beta1" "v1" hmem (by decide)
    have hr6 : check6 p = some .webhookVersionConflict := by simp [check6, hc]
    rw [validate_eq_chain]
    simp [hr1, hr2, hr3, hr4, hr5, hr6, firstFailure]
  · intro hreq
    have hc : p.config.isWebhookVersionCompatible p.resource.webhookVersion = true := by
      rw [hreq]
      exact compat_true_of_committed_all p.config "v1" hall
    have hr6 : check6 p = none := by simp [check6, hc]
    rw [validate_eq_chain]
    simp [hr1, hr2, hr3, hr4, hr5, hr6, firstFailure]

/-- A project already committed to webhook version v1 (the Cruiser resource
carries a v1 descriptor), with the Frigate resource as the target. -/
def c5Cfg : Config :=
  { domain := "test.io"
    resources :=
      [{ gvk := { group := "ship", domain := "test.io", version := "v1", kind := "Frigate" }
         plural := "frigates", webhooks := none },
       { gvk := { group := "ship", domain := "test.io", version := "v1", kind := "Cruiser" }
         plural := "cruisers"
         webhooks := some { webhookVersion := "v1", defaulting := true
                            validating := false, converting := false } }] }

/-- Options requesting a given webhook version for the Frigate resource. -/
def c5Opts (wv : String) : Options :=
  { group := "ship", domain := "test.io", version := "v1", kind := "Frigate"
    plural := "", webhookVersion := wv
    doDefaulting := true, doValidation := false, doConversion := false }

/-- The subcommand state requesting webhook version `wv` on `c5Cfg`. -/
def c5Cmd (wv : String) : CreateWebhookSubcommand :=
  { config := c5Cfg, options := c5Opts wv
    resource := (c5Opts wv).newResource c5Cfg, force := false }

/-- C5 witnessed: on the concrete v1-committed project, requesting v1beta1
reports WebhookVersionConflict and requesting v1 succeeds. -/
theorem validate_webhook_version_conflict_witness :
    (c5Cmd "v1beta1").validate = .error .webhookVersionConflict ∧
    (c5Cmd "v1").validate = .ok () :=
  ⟨(validate_webhook_version_conflict (c5Cmd "v1beta1")
      { gvk := { group := "ship", domain := "test.io", version := "v1", kind := "Frigate" }
        plural := "frigates", webhooks := none }
      (by decide) (by decide) (by decide) (by decide) (by decide) (by decide)
      (by decide)).1 (by decide),
   (validate_webhook_version_conflict (c5Cmd "v1")
      { gvk := { group := "ship", domain := "test.io", version := "v1", kind := "Frigate" }
        plural := "frigates", webhooks := none }
      (by decide) (by decide) (by decide) (by decide) (by decide) (by decide)
      (by decide)).2 (by decide)⟩

/-! ### C6 -/

/-- The ship/Frigate project of the scenario: the API was previously created,
no webhook version is committed anywhere. -/
def c6Cfg : Config :=
  { domain := "seacraft.io"
    resources :=
      [{ gvk := { group := "ship", domain := "seacraft.io", version := "v1beta1"
                  kind := "Frigate" }
         plural := "frigates", webhooks := none }] }

/-- The scenario invocation: group ship, version v1beta1, kind Frigate,
defaulting enabled, and no `--webhook-version` flag given. -/
def c6Flags : FlagInput :=
  { group := some "ship", version := some "v1beta1", kind := some "Frigate"
    plural := none, webhookVersion := none, defaulting := some true
    programmaticValidation := none, conversionFlag := none, forceFlag := none }

/-- The subcommand state after flag binding and resource construction. -/
def c6Cmd : CreateWebhookSubcommand :=
  { config := c6Cfg, options := (bindFlags c6Cfg c6Flags).1
    resource := (bindFlags c6Cfg c6Flags).1.newResource c6Cfg
    force := (bindFlags c6Cfg c6Flags).2 }

/-- The file system used in the scenario: the boilerplate read succeeds. -/
def c6Fs : String → Except Unit String := fun _ => .ok "// Copyright header"

/-- C6: the `--webhook-version` flag defaults to v1 whenever it is not given,
and in the ship/Frigate scenario (resource previously created, no committed
webhook version, defaulting requested) validation succeeds and the scaffolder
is acquired with WebhookVersion v1. -/
theorem webhook_version_defaults_to_v1 :
    defaultWebhookVersion = "v1" ∧
    (∀ (cfg : Config) (fl : FlagInput),
      (bindFlags cfg { fl with webhookVersion := none }).1.webhookVersion = "v1") ∧
    c6Cmd.validate = .ok () ∧
    c6Cmd.resource.webhookVersion = "v1" ∧
    getScaffolder c6Fs c6Cmd =
      .ok { config := c6Cfg, boilerplate := "// Copyright header"
            resource := c6Cmd.resource, force := false } := by
  refine ⟨rfl, fun cfg fl => rfl, by decide, by decide, by decide⟩

/-! ### C7 -/

/-- C7: whenever validation fails, the invocation aborts with that error:
no scaffolder is acquired, no scaffold attempt runs, and the project config
is returned untouched.  (In this embedding `validate` is a function of the
subcommand state alone, so it can modify neither the options, the resource,
nor the config.) -/
theorem run_aborts_on_validation_failure (fs : String → Except Unit String)
    (scaffoldFn : Scaffolder → Config → Config) (cfg : Config) (opts : Options)
    (force : Bool) (e : ErrKind)
    (hfail : CreateWebhookSubcommand.validate
      { config := cfg, options := opts, resource := opts.newResource cfg
        force := force } = .error e) :
    run fs scaffoldFn cfg opts force =
      { result := .error e, scaffolderAcquired := false, scaffoldAttempts := 0
        finalConfig := cfg } := by
  simp only [run, hfail]

/-- C7 witnessed: a concrete failing invocation (no API previously created)
aborts with ResourceNotFound, acquires no scaffolder and leaves the config
as it was. -/
theorem run_aborts_on_validation_failure_witness :
    run (fun _ => .ok "// hdr") (fun _ c => c)
      { domain := "test.io", resources := [] }
      { group := "ship", domain := "test.io", version := "v1", kind := "Frigate"
        plural := "", webhookVersion := "v1"
        doDefaulting := true, doValidation := false, doConversion := false }
      false =
    { result := .error .resourceNotFound, scaffolderAcquired := false
      scaffoldAttempts := 0, finalConfig := { domain := "test.io", resources := [] } } :=
  run_aborts_on_validation_failure (fun _ => .ok "// hdr") (fun _ c => c)
    { domain := "test.io", resources := [] }
    { group := "ship", domain := "test.io", version := "v1", kind := "Frigate"
      plural := "", webhookVersion := "v1"
      doDefaulting := true, doValidation := false, doConversion := false }
    false .resourceNotFound (by decide)

/-! ### C8 -/

/-- C8: GetScaffolder fails, with BoilerplateLoadFailure, exactly when
reading the file at the fixed relative path hack/boilerplate.go.txt fails;
on a successful read it returns the scaffolder handle built from the project
config, the boilerplate text, the built resource, and the force flag. -/
theorem get_scaffolder_boilerplate (fs : String → Except Unit String)
    (p : CreateWebhookSubcommand) :
    boilerplatePath = "hack/boilerplate.go.txt" ∧
    (∀ err, fs boilerplatePath = .error err →
      getScaffolder fs p = .error .boilerplateLoadFailure) ∧
    (∀ e, getScaffolder fs p = .error e →
      e = .boilerplateLoadFailure ∧ ∃ err, fs boilerplatePath = .error err) ∧
    (∀ bp, fs boilerplatePath = .ok bp →
      getScaffolder fs p =
        .ok { config := p.config, boilerplate := bp, resource := p.resource
              force := p.force }) := by
  refine ⟨rfl, ?_, ?_, ?_⟩
  · intro err h
    simp [getScaffolder, h]
  · intro e h
    cases hfs : fs boilerplatePath with
    | error err =>
      simp [getScaffolder, hfs] at h
      exact ⟨h.symm, err, rfl⟩
    | ok bp => simp [getScaffolder, hfs] at h
  · intro bp h
    simp [getScaffolder, h]

/-- A concrete subcommand state for exercising GetScaffolder. -/
def c8Cmd : CreateWebhookSubcommand :=
  let cfg : Config := { domain := "test.io", resources := [] }
  let opts : Options :=
    { group := "ship", domain := "test.io", version := "v1", kind := "Frigate"
      plural := "", webhookVersion := "v1"
      doDefaulting := true, doValidation := false, doConversion := false }
  { config := cfg, options := opts, resource := opts.newResource cfg, force := true }

/-- C8 witnessed: a failing read yields BoilerplateLoadFailure; a successful
read yields the handle carrying exactly the four constructor arguments. -/
theorem get_scaffolder_boilerplate_witness :
    getScaffolder (fun _ => .error ()) c8Cmd = .error .boilerplateLoadFailure ∧
    getScaffolder (fun _ => .ok "// hdr") c8Cmd =
      .ok { config := c8Cmd.config, boilerplate := "// hdr"
            resource := c8Cmd.resource, force := c8Cmd.force } :=
  ⟨(get_scaffolder_boilerplate (fun _ => .error ()) c8Cmd).2.1 () rfl,
   (get_scaffolder_boilerplate (fun _ => .ok "// hdr") c8Cmd).2.2.2 "// hdr" rfl⟩

/-! ### C9 -/

/-- Dropping a fifth check that reports nothing does not change the chain. -/
lemma firstFailure_drop_fifth (a b c d e : Option ErrKind) :
    firstFailure [a, b, c, d, none, e] = firstFailure [a, b, c, d, e] := by
  cases a <;> cases b <;> cases c <;> cases d <;> simp [firstFailure]

/-- C9: Force bypasses only the non-duplication check.  With Force set,
Validate coincides with the chain that omits the duplication test (all other
checks, including resource existence, still run); in particular a request
whose webhook version is incompatible with the committed project version
still fails with WebhookVersionConflict. -/
theorem force_bypasses_only_duplication (p : CreateWebhookSubcommand)
    (hf : p.force = true) :
    p.validate = validateSkippingDuplication p ∧
    (p.options.validate = .ok () → p.resource.validate = .ok () →
      (p.resource.hasDefaultingWebhook || p.resource.hasValidationWebhook
        || p.resource.hasConversionWebhook) = true →
      (∃ r, p.config.getResource p.resource.gvk = some r) →
      p.config.isWebhookVersionCompatible p.resource.webhookVersion = false →
      p.validate = .error .webhookVersionConflict) := by
  have hr5 : check5 p = none := by
    cases h4 : p.config.getResource p.resource.gvk with
    | none => simp [check5, h4]
    | some r => simp [check5, h4, hf]
  have hskip : p.validate = validateSkippingDuplication p := by
    rw [validate_eq_chain, validateSkippingDuplication, hr5, firstFailure_drop_fifth]
  refine ⟨hskip, ?_⟩
  intro h1 h2 h3 h4ex hc
  obtain ⟨r, h4⟩ := h4ex
  have hr1 : check1 p = none := by simp [check1, h1]
  have hr2 : check2 p = none := by simp [check2, h2]
  have hr3 : check3 p = none := by simp [check3, check3_cond_false p h3]
  have hr4 : check4 p = none := by simp [check4, h4]
  have hr6 : check6 p = some .webhookVersionConflict := by simp [check6, hc]
  rw [validate_eq_chain]
  simp [hr1, hr2, hr3, hr4, hr5, hr6, firstFailure]

/-- A forced invocation that conflicts with the committed webhook version:
the target Frigate resource already has a v1 webhook, the request asks for
v1beta1 with Force set. -/
def c9Cmd : CreateWebhookSubcommand :=
  let existing : Resource :=
    { gvk := { group := "ship", domain := "test.io", version := "v1", kind := "Frigate" }
      plural := "frigates"
      webhooks := some { webhookVersion := "v1", defaulting := true
                         validating := false, converting := false } }
  let cfg : Config := { domain := "test.io", resources := [existing] }
  let opts : Options :=
    { group := "ship", domain := "test.io", version := "v1", kind := "Frigate"
      plural := "", webhookVersion := "v1beta1"
      doDefaulting := true, doValidation := false, doConversion := false }
  { config := cfg, options := opts, resource := opts.newResource cfg, force := true }

/-- C9 witnessed on the concrete forced, version-conflicting invocation. -/
theorem force_bypasses_only_duplication_witness :
    c9Cmd.validate = validateSkippingDuplication c9Cmd ∧
    (c9Cmd.options.validate = .ok () → c9Cmd.resource.validate = .ok () →
      (c9Cmd.resource.hasDefaultingWebhook || c9Cmd.resource.hasValidationWebhook
        || c9Cmd.resource.hasConversionWebhook) = true →
      (∃ r, c9Cmd.config.getResource c9Cmd.resource.gvk = some r) →
      c9Cmd.config.isWebhookVersionCompatible c9Cmd.resource.webhookVersion = false →
      c9Cmd.validate = .error .webhookVersionConflict) :=
  force_bypasses_only_duplication c9Cmd rfl

/-! ### C10 -/

/-- C10: the Domain of the built resource is never user-settable — FlagInput
declares no domain flag, flag binding copies the injected config domain into
the options, and the built resource carries exactly that domain. -/
theorem domain_always_from_config (cfg : Config) (fl : FlagInput) :
    (bindFlags cfg fl).1.domain = cfg.domain ∧
    ((bindFlags cfg fl).1.newResource cfg).gvk.domain = cfg.domain :=
  ⟨rfl, rfl⟩

end Kubebuilder
